import Mathlib

/-
Shallow embedding of the dashboard in src/main.py (a Streamlit app).

A pandas DataFrame is modelled as a `Table`: a list of column names and a
list of rows, each row an association list from column name to `Value`.
A `Value` is an integer, a string, or `missing` (pandas NaN/NaT/None).

Pandas operations that raise (KeyError on a missing column, ValueError on a
failed `astype(int)`, IndexError on `df.columns[0]` of an empty column set)
are modelled as `Option`-returning functions, `none` standing for the raised
exception.
-/

inductive Value where
  | int (i : Int)
  | str (s : String)
  | missing
deriving DecidableEq, Repr

abbrev Row := List (String × Value)

structure Table where
  cols : List String
  rows : List Row
deriving DecidableEq, Repr

def Table.hasCol (t : Table) (c : String) : Bool :=
  t.cols.contains c

/-- A row passes an equality filter `df[df[c] == v]` when its value in
column `c` equals `v`; a NaN value (or absent key) compares unequal,
as in pandas. -/
def rowMatches (r : Row) (c : String) (v : Value) : Bool :=
  decide (r.lookup c = some v)

/-- Selection `df[df[c] == v]`: selecting the column raises KeyError
(`none`) when `c` is absent; otherwise the rows with value `v` in `c` are
kept, in order, with the column set unchanged. -/
def Table.colFilter (t : Table) (c : String) (v : Value) : Option Table :=
  if t.hasCol c then
    some { cols := t.cols, rows := t.rows.filter (fun r => rowMatches r c v) }
  else none

/-
The sidebar filter block, src/main.py lines 116-141.

`selYear = none` models `selected_year == "All"`; `selUniv = none` models
`selected_univ == "All"` (or the selector not being shown at all, which
happens exactly when the session table has no University column).
-/

/-- Year step (lines 116-129): when a year is selected, the session and
campaign tables are filtered on Year unconditionally, while the stress
table is filtered only if it has a Year column. -/
def yearFilter (selYear : Option Int) (session campaign stress : Table) :
    Option (Table × Table × Table) :=
  match selYear with
  | none => some (session, campaign, stress)
  | some yr =>
    (session.colFilter "Year" (.int yr)).bind fun s =>
    (campaign.colFilter "Year" (.int yr)).bind fun c =>
    (if stress.hasCol "Year" then stress.colFilter "Year" (.int yr)
     else some stress).bind fun t =>
    some (s, c, t)

/-- University step (lines 131-141): the selector exists only when the
session table has a University column; on a selection, session and campaign
are filtered on University unconditionally, while the stress table is
filtered only if it has a University column. -/
def univFilter (selUniv : Option String) (session campaign stress : Table) :
    Option (Table × Table × Table) :=
  match selUniv with
  | none => some (session, campaign, stress)
  | some u =>
    if session.hasCol "University" then
      (session.colFilter "University" (.str u)).bind fun s =>
      (campaign.colFilter "University" (.str u)).bind fun c =>
      (if stress.hasCol "University" then stress.colFilter "University" (.str u)
       else some stress).bind fun t =>
      some (s, c, t)
    else some (session, campaign, stress)

/-- The whole sidebar filter block: year step, then university step. -/
def sidebarFilter (selYear : Option Int) (selUniv : Option String)
    (session campaign stress : Table) : Option (Table × Table × Table) :=
  match yearFilter selYear session campaign stress with
  | some (s1, c1, t1) => univFilter selUniv s1 c1 t1
  | none => none

/-
Filter predicates, used only to state properties of the block above.
-/

/-- Row predicate of the year dimension: "All" (`none`) keeps everything. -/
def keepYear (selYear : Option Int) (r : Row) : Bool :=
  match selYear with
  | none => true
  | some yr => rowMatches r "Year" (.int yr)

/-- Row predicate of the university dimension: "All" keeps everything. -/
def keepUniv (selUniv : Option String) (r : Row) : Bool :=
  match selUniv with
  | none => true
  | some u => rowMatches r "University" (.str u)

/-- Year predicate guarded by column presence: an absent column imposes no
constraint. -/
def keepYearGuard (g : Bool) (selYear : Option Int) (r : Row) : Bool :=
  !g || keepYear selYear r

/-- University predicate guarded by column presence. -/
def keepUnivGuard (g : Bool) (selUniv : Option String) (r : Row) : Bool :=
  !g || keepUniv selUniv r

/-
Data loading and preprocessing, src/main.py lines 86-102 (`load_data`).
-/

/-- Split a character list on a separator character, as `str.split` does. -/
def splitOnChar (sep : Char) : List Char → List (List Char)
  | [] => [[]]
  | c :: cs =>
    let r := splitOnChar sep cs
    if c = sep then [] :: r
    else (c :: r.headD []) :: r.tail

/-- The numeric value of a list of decimal digit characters. -/
def digitsToNat (l : List Char) : Nat :=
  l.foldl (fun acc c => acc * 10 + (c.toNat - 48)) 0

/-- Date parsing, an abstraction of `pd.to_datetime(.., errors="coerce")`
restricted to the yyyy-mm-dd form the source assumes (comment on line 93):
the year of a well-formed date, `none` (NaT) otherwise. -/
def parseYMD (s : String) : Option Int :=
  match splitOnChar '-' s.data with
  | [ys, ms, ds] =>
    if decide (ys.length = 4) && ys.all Char.isDigit
        && decide (1 ≤ ms.length) && decide (ms.length ≤ 2)
        && ms.all Char.isDigit
        && decide (1 ≤ ds.length) && decide (ds.length ≤ 2)
        && ds.all Char.isDigit then
      let m := digitsToNat ms
      let d := digitsToNat ds
      if decide (1 ≤ m) && decide (m ≤ 12)
          && decide (1 ≤ d) && decide (d ≤ 31) then
        some (Int.ofNat (digitsToNat ys))
      else none
    else none
  | _ => none

/-- Column assignment `df[c] = v` for one row: replaces the value when the
column exists, appends it at the end otherwise (as pandas does). -/
def Row.setCol (r : Row) (c : String) (v : Value) : Row :=
  if (r.lookup c).isSome then
    r.map (fun p => if p.1 = c then (c, v) else p)
  else r ++ [(c, v)]

/-- Year derived for one campaign row: the parsed year of a string Date,
`missing` (NaN) when the Date is unparsable or itself missing. -/
def campaignYearOf (r : Row) : Value :=
  match r.lookup "Date" with
  | some (.str s) =>
    match parseYMD s with
    | some y => .int y
    | none => .missing
  | _ => .missing

/-- Line 94: `campaign["Year"] = pd.to_datetime(campaign["Date"],
errors="coerce").dt.year`. Selecting a missing Date column raises
(`none`); otherwise every row gets a Year, missing on parse failure. -/
def campaignAddYear (t : Table) : Option Table :=
  if t.hasCol "Date" then
    some { cols := if t.hasCol "Year" then t.cols else t.cols ++ ["Year"],
           rows := t.rows.map fun r => r.setCol "Year" (campaignYearOf r) }
  else none

/-- Python `int(str)` as applied by `astype(int)` to a string: optional
surrounding whitespace and sign, then decimal digits; anything else
raises (`none`). -/
def pyIntOfChars (l : List Char) : Option Int :=
  let l1 := ((l.dropWhile Char.isWhitespace).reverse.dropWhile
    Char.isWhitespace).reverse
  match l1 with
  | '-' :: rest =>
    if !rest.isEmpty && rest.all Char.isDigit then
      some (-(Int.ofNat (digitsToNat rest)))
    else none
  | '+' :: rest =>
    if !rest.isEmpty && rest.all Char.isDigit then
      some (Int.ofNat (digitsToNat rest))
    else none
  | rest =>
    if !rest.isEmpty && rest.all Char.isDigit then
      some (Int.ofNat (digitsToNat rest))
    else none

/-- Conversion applied by `astype(int)` to one value: ints pass through,
numeric strings convert, anything else (text, NaN) raises (`none`). -/
def yearToInt : Value → Option Int
  | .int i => some i
  | .str s => pyIntOfChars s.data
  | .missing => none

/-- Line 97: `session["Year"] = session["Year"].astype(int)`. Raises
(`none`) when the Year column is absent or any of its values fails to
convert to an integer. -/
def sessionCoerceYear (t : Table) : Option Table :=
  if t.hasCol "Year" then
    (t.rows.mapM fun (r : Row) =>
      match r.lookup "Year" with
      | some v => (yearToInt v).map fun i => r.setCol "Year" (.int i)
      | none => none).map
      fun rs => { cols := t.cols, rows := rs }
  else none

/-
Aggregations used by the charts.
-/

/-- Lexicographic comparison of character lists by code point. -/
def charsLe : List Char → List Char → Bool
  | [], _ => true
  | _ :: _, [] => false
  | c :: cs, d :: ds =>
    if c.toNat < d.toNat then true
    else if c.toNat = d.toNat then charsLe cs ds
    else false

/-- Total order used for pandas key sorting; the datasets' keys are
homogeneous (all ints or all strings), where this agrees with pandas. -/
def Value.leb : Value → Value → Bool
  | .int i, .int j => decide (i ≤ j)
  | .int _, _ => true
  | .str _, .int _ => false
  | .str a, .str b => charsLe a.data b.data
  | .str _, .missing => true
  | .missing, .missing => true
  | .missing, _ => false

/-- Insert into a sorted duplicate-free list, skipping duplicates. -/
def insVal (v : Value) : List Value → List Value
  | [] => [v]
  | w :: ws =>
    if v = w then w :: ws
    else if Value.leb v w then v :: w :: ws
    else w :: insVal v ws

/-- The sorted distinct non-missing values of a list, as pandas sorts
group keys (NaN keys are dropped by groupby/pivot_table). -/
def uniqueSorted (l : List Value) : List Value :=
  (l.filter (fun v => v ≠ Value.missing)).foldl (fun acc v => insVal v acc) []

/-- One cell of the Sessions_Held pivot: the sum over the rows of the
(University, Year) group, NaN (`missing`) when the group has no row. -/
def cellSum (rows : List Row) (u y : Value) : Value :=
  let grp := rows.filter fun r =>
    rowMatches r "University" u && rowMatches r "Year" y
  if grp.isEmpty then .missing
  else .int ((grp.filterMap fun r =>
    match r.lookup "Sessions_Held" with
    | some (.int i) => some i
    | _ => none).foldl (· + ·) 0)

/-- Lines 197-201: `df.pivot_table(index="University", columns="Year",
values="Sessions_Held", aggfunc="sum").reset_index().melt("University",
var_name="Year", value_name="Sessions_Held")`. A missing column raises
KeyError (`none`). The melt enumerates every University found in the data
for every Year found in the data, year-major, so group keys absent from
the data appear with a missing (NaN) aggregate. -/
def pivotMelt (t : Table) : Option Table :=
  if t.hasCol "University" && t.hasCol "Year" && t.hasCol "Sessions_Held" then
    let univs := uniqueSorted (t.rows.filterMap fun r => r.lookup "University")
    let years := uniqueSorted (t.rows.filterMap fun r => r.lookup "Year")
    some { cols := ["University", "Year", "Sessions_Held"],
           rows := (years.map fun y => univs.map fun u =>
             [("University", u), ("Year", y),
              ("Sessions_Held", cellSum t.rows u y)]).flatten }
  else none

/-- Line 303: `df.groupby(["Year", k2]).size().reset_index(name="Headlines")`
with `k2 = "University" if "University" in df.columns else df.columns[0]`.
`none` models the IndexError on an empty column set or the KeyError on a
missing Year column. Only observed (non-NaN) key pairs appear, sorted. -/
def groupSize (df : Table) : Option Table :=
  let key2 := if df.hasCol "University" then some "University" else df.cols.head?
  match key2 with
  | none => none
  | some k2 =>
    if df.hasCol "Year" then
      let years := uniqueSorted (df.rows.filterMap fun r => r.lookup "Year")
      let seconds := uniqueSorted (df.rows.filterMap fun r => r.lookup k2)
      some { cols := ["Year", k2, "Headlines"],
             rows := (years.map fun y => seconds.filterMap fun s =>
               let n := (df.rows.filter fun r =>
                 rowMatches r "Year" y && rowMatches r k2 s).length
               if n = 0 then none
               else some [("Year", y), (k2, s), ("Headlines", .int n)]).flatten }
    else none

/-
String helpers for the word-cloud chart (lines 317-332).
-/

/-- Python `str(v)` as applied by `astype(str)` to the surviving values. -/
def valueToStr : Value → String
  | .int i => toString i
  | .str s => s
  | .missing => "nan"

/-- Python `" ".join(l)`. -/
def pyJoin : List String → String
  | [] => ""
  | [s] => s
  | s :: rest => s ++ " " ++ pyJoin rest

/-- Python `s.strip()`: leading and trailing whitespace removed. -/
def pyStrip (s : String) : String :=
  ⟨((s.data.dropWhile Char.isWhitespace).reverse.dropWhile
      Char.isWhitespace).reverse⟩

/-- Line 324: `" ".join(df["Session_Notes"].dropna().astype(str).tolist())`:
NaN notes are dropped, the rest stringified and joined with spaces. -/
def notesText (df : Table) : String :=
  pyJoin (df.rows.filterMap fun r =>
    match r.lookup "Session_Notes" with
    | some Value.missing => none
    | none => none
    | some v => some (valueToStr v))

/-- Every Session_Notes value of the table is missing or whitespace-only
(used only to state properties of the word-cloud chart). -/
def notesAllBlank (t : Table) : Bool :=
  t.rows.all fun r =>
    match r.lookup "Session_Notes" with
    | some Value.missing => true
    | none => true
    | some (.str s) => s.data.all Char.isWhitespace
    | some (.int _) => false

/-
The ten chart-builder functions, lines 156-332. Each run of a chart
function ends in exactly one observable outcome:
  `info msg`     an `st.info(msg)` notice and no figure;
  `warn lib`     the `_warn_missing` warning naming the absent optional
                 library, and no figure;
  `figure data`  a rendered figure, carrying the table handed to (or
                 computed for) the plotting call;
  `raise msg`    an uncaught exception from a pandas/plotly call, which
                 aborts the Streamlit render pass.
Altair encodings (`"Year:O"` etc.) are resolved client-side and never
raise in this process, so Altair charts yield `figure` on any column set;
`px.scatter`/`pivot_table`/`groupby` validate columns in-process and are
modelled with a `raise` outcome on a missing required column.
`HAS_PLOTLY` and `HAS_WORDCLOUD` are passed explicitly. -/
inductive ChartResult where
  | info (msg : String)
  | warn (lib : String)
  | figure (data : Table)
  | raise (msg : String)
deriving DecidableEq, Repr

/-- Lines 156-171: Altair area chart of sessions over years. -/
def draw_sessions_trend (df : Table) : ChartResult :=
  if df.rows.isEmpty then .info "No data for selected filters."
  else .figure df

/-- Lines 174-190: Plotly bubble chart; `px.scatter` raises when one of
its x/y/size/hover columns is absent. -/
def draw_sessions_bubble (hasPlotly : Bool) (df : Table) : ChartResult :=
  if df.rows.isEmpty then .info "No data for selected filters."
  else if hasPlotly then
    if df.hasCol "Sessions_Held" && df.hasCol "Students_Served"
        && df.hasCol "Avg_Session_Duration" && df.hasCol "Year" then
      .figure df
    else .raise "ValueError: value not in DataFrame columns"
  else .warn "plotly-express"

/-- Lines 193-212: Altair heatmap over the pivot table. -/
def draw_sessions_heatmap (df : Table) : ChartResult :=
  if df.rows.isEmpty then .info "No data for selected filters."
  else
    match pivotMelt df with
    | some p => .figure p
    | none => .raise "KeyError: pivot_table column not found"

/-- Lines 215-229: stacked bar, guarded on Stress_Level. -/
def draw_stress_stacked_bar (df : Table) : ChartResult :=
  if df.rows.isEmpty || !df.hasCol "Stress_Level" then
    .info "Stress level data unavailable for selected filters."
  else .figure df

/-- Lines 232-248: Plotly violin, guarded on Avg_Sleep_Hours; the x and
color encodings fall back to None when their columns are absent. -/
def draw_sleep_violin (hasPlotly : Bool) (df : Table) : ChartResult :=
  if df.rows.isEmpty || !df.hasCol "Avg_Sleep_Hours" then
    .info "Sleep data unavailable for selected filters."
  else if hasPlotly then .figure df
  else .warn "plotly-express"

/-- Lines 251-259: Plotly treemap, guarded on Primary_Stress_Factor. -/
def draw_stress_treemap (hasPlotly : Bool) (df : Table) : ChartResult :=
  if df.rows.isEmpty || !df.hasCol "Primary_Stress_Factor" then
    .info "Stress factor data unavailable for selected filters."
  else if hasPlotly then .figure df
  else .warn "plotly-express"

/-- Lines 262-271: Plotly sunburst, guarded on all three path columns. -/
def draw_stress_sunburst (hasPlotly : Bool) (df : Table) : ChartResult :=
  if df.rows.isEmpty || !(df.hasCol "Stress_Level" && df.hasCol "Seeks_Help"
      && df.hasCol "Gender") then
    .info "Sunburst requires Stress_Level, Seeks_Help, and Gender columns."
  else if hasPlotly then .figure df
  else .warn "plotly-express"

/-- Lines 274-296: age histogram, guarded on Age; renders through Plotly
when available and through an Altair fallback otherwise. -/
def draw_age_hist (hasPlotly : Bool) (df : Table) : ChartResult :=
  if df.rows.isEmpty || !df.hasCol "Age" then
    .info "Age data unavailable for selected filters."
  else if hasPlotly then .figure df
  else .figure df

/-- Lines 299-314: Altair bar chart over the groupby-size aggregate;
`groupby` raises when its Year key column is absent. -/
def draw_campaign_timeline (df : Table) : ChartResult :=
  if df.rows.isEmpty then .info "No campaign data for selected filters."
  else
    match groupSize df with
    | some a => .figure a
    | none => .raise "KeyError: groupby column not found"

/-- Lines 317-332: word cloud over the joined session notes. -/
def draw_session_notes_wordcloud (hasWordcloud : Bool) (df : Table) :
    ChartResult :=
  if df.rows.isEmpty || !df.hasCol "Session_Notes" then
    .info "Session notes unavailable for selected filters."
  else if !hasWordcloud then .warn "wordcloud"
  else if pyStrip (notesText df) = "" then
    .info "Session notes are empty after filtering."
  else .figure df

/-
Concrete tables, shaped like the three datasets of section 3 of the spec.
-/

/-- A session row with the counseling-center columns. -/
def sessRow (y : Int) (u : String) (sh ss : Int) (dur : Int) (notes : Value) :
    Row :=
  [("Year", .int y), ("University", .str u), ("Sessions_Held", .int sh),
   ("Students_Served", .int ss), ("Avg_Session_Duration", .int dur),
   ("Session_Notes", notes)]

def sessionCols : List String :=
  ["Year", "University", "Sessions_Held", "Students_Served",
   "Avg_Session_Duration", "Session_Notes"]

def sessionEx : Table :=
  { cols := sessionCols,
    rows := [sessRow 2023 "A" 5 40 50 (.str "stress exams sleep"),
             sessRow 2023 "B" 2 10 45 (.str "workload anxiety"),
             sessRow 2024 "A" 7 55 60 .missing] }

/-- A session table whose rows survive the filters but whose notes are
NaN or whitespace only. -/
def sessionBlankNotes : Table :=
  { cols := sessionCols,
    rows := [sessRow 2023 "A" 5 40 50 (.str "   "),
             sessRow 2023 "B" 2 10 45 .missing,
             sessRow 2024 "A" 7 55 60 (.str " ")] }

/-- An empty session table, as produced by filtering to a university with
no matching rows. -/
def emptyTable : Table :=
  { cols := sessionCols, rows := [] }

/-- A non-empty session-shaped table lacking the Sessions_Held column the
heatmap and bubble charts compute over. -/
def sessionNoHeld : Table :=
  { cols := ["Year", "University"],
    rows := [[("Year", .int 2023), ("University", .str "A")]] }

/-- A session table whose Year column holds an unparsable value. -/
def sessionBadYear : Table :=
  { cols := sessionCols,
    rows := [[("Year", .str "N/A"), ("University", .str "A"),
              ("Sessions_Held", .int 5), ("Students_Served", .int 40),
              ("Avg_Session_Duration", .int 50),
              ("Session_Notes", .missing)]] }

/-- A stress row with the survey columns (no Year column, as the survey
dataset may lack one). -/
def stressRow (u sl g : String) (age : Int) (sleep : Int) (f sk : String) :
    Row :=
  [("University", .str u), ("Stress_Level", .str sl), ("Gender", .str g),
   ("Age", .int age), ("Avg_Sleep_Hours", .int sleep),
   ("Primary_Stress_Factor", .str f), ("Seeks_Help", .str sk)]

def stressEx : Table :=
  { cols := ["University", "Stress_Level", "Gender", "Age",
             "Avg_Sleep_Hours", "Primary_Stress_Factor", "Seeks_Help"],
    rows := [stressRow "A" "High" "F" 21 6 "Exams" "Yes",
             stressRow "B" "Low" "M" 23 8 "Finances" "No"] }

/-- The stress table with its Stress_Level column dropped. -/
def stressNoLevel : Table :=
  { cols := ["University", "Gender", "Age", "Avg_Sleep_Hours",
             "Primary_Stress_Factor", "Seeks_Help"],
    rows := [[("University", .str "A"), ("Gender", .str "F"),
              ("Age", .int 21), ("Avg_Sleep_Hours", .int 6),
              ("Primary_Stress_Factor", .str "Exams"),
              ("Seeks_Help", .str "Yes")]] }

/-- A campaign row. -/
def campRow (d : String) (y : Value) (u h : String) : Row :=
  [("Date", .str d), ("Headline", .str h), ("University", .str u),
   ("Year", y)]

def campaignEx : Table :=
  { cols := ["Date", "Headline", "University", "Year"],
    rows := [campRow "2023-01-02" (.int 2023) "A" "Campus launches hotline",
             campRow "2023-03-02" (.int 2023) "A" "Awareness week",
             campRow "2024-01-01" (.int 2024) "B" "New counselors hired"] }

/-- A campaign table lacking the University column. -/
def campaignNoUniv : Table :=
  { cols := ["Date", "Headline", "Year"],
    rows := [[("Date", .str "2023-01-02"),
              ("Headline", .str "Campus launches hotline"),
              ("Year", .int 2023)]] }

/-- A raw campaign table before loading, holding one unparsable Date. -/
def campaignRaw : Table :=
  { cols := ["Date", "Headline"],
    rows := [[("Date", .str "2023-01-02"), ("Headline", .str "ok story")],
             [("Date", .str "not a date"), ("Headline", .str "bad story")]] }

/-- The aggregation example of section 8 of the spec. -/
def aggRow (y : Int) (u : String) (sh : Int) : Row :=
  [("Year", .int y), ("University", .str u), ("Sessions_Held", .int sh)]

def aggEx : Table :=
  { cols := ["Year", "University", "Sessions_Held"],
    rows := [aggRow 2023 "A" 5, aggRow 2023 "A" 3, aggRow 2023 "B" 2] }

/-- A session table with (University, Year) combinations absent from the
data: university A has no 2024 row and university B no 2023 row. -/
def aggSparse : Table :=
  { cols := ["Year", "University", "Sessions_Held"],
    rows := [aggRow 2023 "A" 5, aggRow 2024 "B" 2] }

/-- The session rows surviving the filter (Year 2023, University A). -/
def sessionExF : Table :=
  { cols := sessionCols,
    rows := [sessRow 2023 "A" 5 40 50 (.str "stress exams sleep")] }

/-- The campaign rows surviving the filter (Year 2023, University A). -/
def campaignExF : Table :=
  { cols := ["Date", "Headline", "University", "Year"],
    rows := [campRow "2023-01-02" (.int 2023) "A" "Campus launches hotline",
             campRow "2023-03-02" (.int 2023) "A" "Awareness week"] }

/-- The stress rows surviving the filter (no Year column, University A). -/
def stressExF : Table :=
  { cols := ["University", "Stress_Level", "Gender", "Age",
             "Avg_Sleep_Hours", "Primary_Stress_Factor", "Seeks_Help"],
    rows := [stressRow "A" "High" "F" 21 6 "Exams" "Yes"] }

/-- The session rows surviving a Year 2024, University "All" filter. -/
def sessionEx24 : Table :=
  { cols := sessionCols, rows := [sessRow 2024 "A" 7 55 60 .missing] }

/-- The campaign rows surviving a Year 2024, University "All" filter. -/
def campaignEx24 : Table :=
  { cols := ["Date", "Headline", "University", "Year"],
    rows := [campRow "2024-01-01" (.int 2024) "B" "New counselors hired"] }

/-- A stress table lacking both the Year and the University columns. -/
def stressNoKeys : Table :=
  { cols := ["Stress_Level", "Gender", "Age", "Avg_Sleep_Hours",
             "Primary_Stress_Factor", "Seeks_Help"],
    rows := [[("Stress_Level", .str "High"), ("Gender", .str "F"),
              ("Age", .int 21), ("Avg_Sleep_Hours", .int 6),
              ("Primary_Stress_Factor", .str "Exams"),
              ("Seeks_Help", .str "Yes")]] }

/-- The campaign row of `campaignRaw` whose Date does not parse. -/
def campRowBad : Row :=
  [("Date", .str "not a date"), ("Headline", .str "bad story")]

/-- The melted pivot of `aggEx`: exactly the two observed groups. -/
def aggExPivot : Table :=
  { cols := ["University", "Year", "Sessions_Held"],
    rows := [[("University", .str "A"), ("Year", .int 2023),
              ("Sessions_Held", .int 8)],
             [("University", .str "B"), ("Year", .int 2023),
              ("Sessions_Held", .int 2)]] }

/-- The melted pivot of `aggSparse`: the two groups absent from the data,
(B, 2023) and (A, 2024), appear with a missing (NaN) aggregate. -/
def aggSparsePivot : Table :=
  { cols := ["University", "Year", "Sessions_Held"],
    rows := [[("University", .str "A"), ("Year", .int 2023),
              ("Sessions_Held", .int 5)],
             [("University", .str "B"), ("Year", .int 2023),
              ("Sessions_Held", .missing)],
             [("University", .str "A"), ("Year", .int 2024),
              ("Sessions_Held", .missing)],
             [("University", .str "B"), ("Year", .int 2024),
              ("Sessions_Held", .int 2)]] }

/-
Helper lemmas about the filter block.
-/

theorem filter_and (p q : α → Bool) (l : List α) :
    (l.filter p).filter q = l.filter fun a => p a && q a := by
  rw [List.filter_filter]
  exact List.filter_congr fun x _ => Bool.and_comm _ _

theorem hasCol_congr {t1 t2 : Table} (h : t1.cols = t2.cols) (c : String) :
    t1.hasCol c = t2.hasCol c := by
  simp [Table.hasCol, h]

theorem colFilter_eq_some {t t' : Table} {c : String} {v : Value}
    (h : t.colFilter c v = some t') :
    t.hasCol c = true ∧ t'.cols = t.cols ∧
      t'.rows = t.rows.filter fun r => rowMatches r c v := by
  simp only [Table.colFilter] at h
  split at h
  next hc =>
    have h2 := Option.some.inj h
    subst h2
    exact ⟨hc, rfl, rfl⟩
  next => exact absurd h (by simp)

theorem yearFilter_eq_some {sy : Option Int}
    {session campaign stress s1 c1 t1 : Table}
    (h : yearFilter sy session campaign stress = some (s1, c1, t1)) :
    (s1.cols = session.cols ∧
      s1.rows = session.rows.filter fun r => keepYear sy r) ∧
    (c1.cols = campaign.cols ∧
      c1.rows = campaign.rows.filter fun r => keepYear sy r) ∧
    (t1.cols = stress.cols ∧
      t1.rows = stress.rows.filter fun r =>
        keepYearGuard (stress.hasCol "Year") sy r) := by
  cases sy with
  | none =>
    simp only [yearFilter, Option.some.injEq, Prod.mk.injEq] at h
    obtain ⟨rfl, rfl, rfl⟩ := h
    simp [keepYear, keepYearGuard]
  | some yr =>
    simp only [yearFilter, Option.bind_eq_some] at h
    obtain ⟨s, hs, c, hc, t, ht, heq⟩ := h
    simp only [Option.some.injEq, Prod.mk.injEq] at heq
    obtain ⟨rfl, rfl, rfl⟩ := heq
    obtain ⟨hsc, hscols, hsrows⟩ := colFilter_eq_some hs
    obtain ⟨hcc, hccols, hcrows⟩ := colFilter_eq_some hc
    refine ⟨⟨hscols, ?_⟩, ⟨hccols, ?_⟩, ?_⟩
    · simpa [keepYear] using hsrows
    · simpa [keepYear] using hcrows
    · by_cases hty : stress.hasCol "Year" = true
      · rw [if_pos hty] at ht
        obtain ⟨_, htcols, htrows⟩ := colFilter_eq_some ht
        exact ⟨htcols, by simpa [keepYearGuard, keepYear, hty] using htrows⟩
      · rw [if_neg hty] at ht
        have h2 := Option.some.inj ht
        subst h2
        simp only [Bool.not_eq_true] at hty
        simp [keepYearGuard, hty]

theorem univFilter_eq_some {su : Option String}
    {session campaign stress s1 c1 t1 : Table}
    (h : univFilter su session campaign stress = some (s1, c1, t1)) :
    (s1.cols = session.cols ∧
      s1.rows = session.rows.filter fun r =>
        keepUnivGuard (session.hasCol "University") su r) ∧
    (c1.cols = campaign.cols ∧
      c1.rows = campaign.rows.filter fun r =>
        keepUnivGuard (session.hasCol "University") su r) ∧
    (t1.cols = stress.cols ∧
      t1.rows = stress.rows.filter fun r =>
        keepUnivGuard
          (session.hasCol "University" && stress.hasCol "University") su r) := by
  cases su with
  | none =>
    simp only [univFilter, Option.some.injEq, Prod.mk.injEq] at h
    obtain ⟨rfl, rfl, rfl⟩ := h
    simp [keepUniv, keepUnivGuard]
  | some u =>
    simp only [univFilter] at h
    by_cases hsu : session.hasCol "University" = true
    · rw [if_pos hsu] at h
      simp only [Option.bind_eq_some] at h
      obtain ⟨s, hs, c, hc, t, ht, heq⟩ := h
      simp only [Option.some.injEq, Prod.mk.injEq] at heq
      obtain ⟨rfl, rfl, rfl⟩ := heq
      obtain ⟨_, hscols, hsrows⟩ := colFilter_eq_some hs
      obtain ⟨_, hccols, hcrows⟩ := colFilter_eq_some hc
      refine ⟨⟨hscols, ?_⟩, ⟨hccols, ?_⟩, ?_⟩
      · simpa [keepUnivGuard, keepUniv, hsu] using hsrows
      · simpa [keepUnivGuard, keepUniv, hsu] using hcrows
      · by_cases htu : stress.hasCol "University" = true
        · rw [if_pos htu] at ht
          obtain ⟨_, htcols, htrows⟩ := colFilter_eq_some ht
          exact ⟨htcols,
            by simpa [keepUnivGuard, keepUniv, hsu, htu] using htrows⟩
        · rw [if_neg htu] at ht
          have h2 := Option.some.inj ht
          subst h2
          simp only [Bool.not_eq_true] at htu
          simp [keepUnivGuard, htu]
    · rw [if_neg hsu] at h
      simp only [Option.some.injEq, Prod.mk.injEq] at h
      obtain ⟨rfl, rfl, rfl⟩ := h
      simp only [Bool.not_eq_true] at hsu
      simp [keepUnivGuard, hsu]

theorem sidebarFilter_eq_some {sy : Option Int} {su : Option String}
    {session campaign stress s' c' t' : Table}
    (h : sidebarFilter sy su session campaign stress = some (s', c', t')) :
    (s'.cols = session.cols ∧
      s'.rows = session.rows.filter fun r =>
        keepYear sy r && keepUnivGuard (session.hasCol "University") su r) ∧
    (c'.cols = campaign.cols ∧
      c'.rows = campaign.rows.filter fun r =>
        keepYear sy r && keepUnivGuard (session.hasCol "University") su r) ∧
    (t'.cols = stress.cols ∧
      t'.rows = stress.rows.filter fun r =>
        keepYearGuard (stress.hasCol "Year") sy r &&
        keepUnivGuard
          (session.hasCol "University" && stress.hasCol "University") su r) := by
  revert h
  unfold sidebarFilter
  cases hY : yearFilter sy session campaign stress with
  | none => intro h; exact absurd h (by simp)
  | some x =>
    obtain ⟨s1, c1, t1⟩ := x
    intro h
    obtain ⟨⟨hs1c, hs1r⟩, ⟨hc1c, hc1r⟩, ⟨ht1c, ht1r⟩⟩ := yearFilter_eq_some hY
    obtain ⟨⟨hsc, hsr⟩, ⟨hcc, hcr⟩, ⟨htc, htr⟩⟩ := univFilter_eq_some h
    rw [hasCol_congr hs1c] at hsr hcr htr
    rw [hasCol_congr ht1c] at htr
    rw [hs1r, filter_and] at hsr
    rw [hc1r, filter_and] at hcr
    rw [ht1r, filter_and] at htr
    exact ⟨⟨hsc.trans hs1c, hsr⟩, ⟨hcc.trans hc1c, hcr⟩,
      ⟨htc.trans ht1c, htr⟩⟩

/-
Helper lemmas about column assignment and the notes text.
-/

theorem lookup_map_set (c : String) (v : Value) :
    ∀ r : Row, (r.lookup c).isSome = true →
      (r.map fun p => if p.1 = c then (c, v) else p).lookup c = some v := by
  intro r
  induction r with
  | nil => intro h; simp at h
  | cons p rest ih =>
    intro h
    obtain ⟨k, w⟩ := p
    by_cases hk : k = c
    · subst hk
      simp [List.lookup_cons]
    · have hb : (c == k) = false := beq_eq_false_iff_ne.mpr fun h2 => hk h2.symm
      have h2 : (rest.lookup c).isSome = true := by
        simpa [List.lookup_cons, hb] using h
      simpa [hk, List.lookup_cons, hb] using ih h2

theorem lookup_append_self (c : String) (v : Value) :
    ∀ r : Row, r.lookup c = none → (r ++ [(c, v)]).lookup c = some v := by
  intro r
  induction r with
  | nil => intro _; simp [List.lookup_cons]
  | cons p rest ih =>
    intro h
    obtain ⟨k, w⟩ := p
    by_cases hk : k = c
    · subst hk
      simp [List.lookup_cons] at h
    · have hb : (c == k) = false := beq_eq_false_iff_ne.mpr fun h2 => hk h2.symm
      have h2 : rest.lookup c = none := by
        simpa [List.lookup_cons, hb] using h
      simpa [List.lookup_cons, hb] using ih h2

theorem lookup_setCol (r : Row) (c : String) (v : Value) :
    (r.setCol c v).lookup c = some v := by
  unfold Row.setCol
  by_cases h : (r.lookup c).isSome = true
  · rw [if_pos h]
    exact lookup_map_set c v r h
  · rw [if_neg h]
    refine lookup_append_self c v r ?_
    cases hx : r.lookup c with
    | none => rfl
    | some w => rw [hx] at h; simp at h

theorem allWhitespace_pyJoin :
    ∀ l : List String, (∀ s ∈ l, s.data.all Char.isWhitespace = true) →
      (pyJoin l).data.all Char.isWhitespace = true := by
  intro l
  induction l with
  | nil => intro _; decide
  | cons s rest ih =>
    intro h
    cases rest with
    | nil => exact h s (by simp)
    | cons s2 r2 =>
      have h1 := h s (by simp)
      have h2 : ∀ x ∈ s2 :: r2, x.data.all Char.isWhitespace = true :=
        fun x hx => h x (by simp [hx])
      have hsp : (" " : String).data.all Char.isWhitespace = true := by decide
      simp only [pyJoin, String.data_append, List.all_append]
      simp [h1, ih h2, hsp]

theorem pyStrip_eq_empty {s : String}
    (h : s.data.all Char.isWhitespace = true) : pyStrip s = "" := by
  have hd : s.data.dropWhile Char.isWhitespace = [] :=
    List.dropWhile_eq_nil_iff.mpr (by simpa [List.all_eq_true] using h)
  unfold pyStrip
  rw [hd]
  rfl

/-
The claims.
-/

/-- Claim C1: whenever the sidebar filter block completes, each dataset
retains exactly the rows whose value in each active filter dimension
equals the selected value (a dimension set to "All", modelled by `none`,
imposes no constraint, and the guarded dimensions of the stress table
constrain only when their column is present), so each filtered table is a
subset of the original with row count at most the original's. -/
theorem C1_filter_retains_exactly (sy : Option Int) (su : Option String)
    (session campaign stress s' c' t' : Table)
    (h : sidebarFilter sy su session campaign stress = some (s', c', t')) :
    (s'.rows = session.rows.filter (fun r =>
        keepYear sy r && keepUnivGuard (session.hasCol "University") su r) ∧
      s'.rows.length ≤ session.rows.length) ∧
    (c'.rows = campaign.rows.filter (fun r =>
        keepYear sy r && keepUnivGuard (session.hasCol "University") su r) ∧
      c'.rows.length ≤ campaign.rows.length) ∧
    (t'.rows = stress.rows.filter (fun r =>
        keepYearGuard (stress.hasCol "Year") sy r &&
        keepUnivGuard
          (session.hasCol "University" && stress.hasCol "University") su r) ∧
      t'.rows.length ≤ stress.rows.length) := by
  obtain ⟨⟨_, hsr⟩, ⟨_, hcr⟩, ⟨_, htr⟩⟩ := sidebarFilter_eq_some h
  refine ⟨⟨hsr, ?_⟩, ⟨hcr, ?_⟩, ⟨htr, ?_⟩⟩
  · rw [hsr]; exact List.length_filter_le _ _
  · rw [hcr]; exact List.length_filter_le _ _
  · rw [htr]; exact List.length_filter_le _ _

/-- Witness for C1 at Year 2023, University A over the example datasets. -/
theorem C1_witness :
    sidebarFilter (some 2023) (some "A") sessionEx campaignEx stressEx
      = some (sessionExF, campaignExF, stressExF) ∧
    ((sessionExF.rows = sessionEx.rows.filter (fun r =>
        keepYear (some 2023) r &&
        keepUnivGuard (sessionEx.hasCol "University") (some "A") r) ∧
      sessionExF.rows.length ≤ sessionEx.rows.length) ∧
    (campaignExF.rows = campaignEx.rows.filter (fun r =>
        keepYear (some 2023) r &&
        keepUnivGuard (sessionEx.hasCol "University") (some "A") r) ∧
      campaignExF.rows.length ≤ campaignEx.rows.length) ∧
    (stressExF.rows = stressEx.rows.filter (fun r =>
        keepYearGuard (stressEx.hasCol "Year") (some 2023) r &&
        keepUnivGuard (sessionEx.hasCol "University" &&
          stressEx.hasCol "University") (some "A") r) ∧
      stressExF.rows.length ≤ stressEx.rows.length)) :=
  ⟨by decide,
   C1_filter_retains_exactly (some 2023) (some "A") sessionEx campaignEx
     stressEx sessionExF campaignExF stressExF (by decide)⟩

/-- Claim C6: with the year selection "All", the year-filtering step hands
every dataset back unchanged, row for row. -/
theorem C6_year_all_identity (session campaign stress : Table) :
    yearFilter none session campaign stress
      = some (session, campaign, stress) := rfl

/-- Claim C9: whenever the sidebar filter block completes, each output
table keeps the original column list and its rows form a sublist (an
order-preserving selection) of the original rows; the inputs themselves
are untouched, the outputs being freshly built tables whose rows are
drawn from the originals. Column types are preserved because every
retained row is literally a row of the original table. -/
theorem C9_filter_preserves (sy : Option Int) (su : Option String)
    (session campaign stress s' c' t' : Table)
    (h : sidebarFilter sy su session campaign stress = some (s', c', t')) :
    (s'.cols = session.cols ∧ s'.rows.Sublist session.rows) ∧
    (c'.cols = campaign.cols ∧ c'.rows.Sublist campaign.rows) ∧
    (t'.cols = stress.cols ∧ t'.rows.Sublist stress.rows) := by
  obtain ⟨⟨hsc, hsr⟩, ⟨hcc, hcr⟩, ⟨htc, htr⟩⟩ := sidebarFilter_eq_some h
  refine ⟨⟨hsc, ?_⟩, ⟨hcc, ?_⟩, ⟨htc, ?_⟩⟩
  · rw [hsr]; exact List.filter_sublist _
  · rw [hcr]; exact List.filter_sublist _
  · rw [htr]; exact List.filter_sublist _

/-- Witness for C9 at Year 2024, University "All". -/
theorem C9_witness :
    sidebarFilter (some 2024) none sessionEx campaignEx stressEx
      = some (sessionEx24, campaignEx24, stressEx) ∧
    (sessionEx24.cols = sessionEx.cols ∧
      sessionEx24.rows.Sublist sessionEx.rows) ∧
    (campaignEx24.cols = campaignEx.cols ∧
      campaignEx24.rows.Sublist campaignEx.rows) ∧
    (stressEx.cols = stressEx.cols ∧ stressEx.rows.Sublist stressEx.rows) :=
  ⟨by decide,
   C9_filter_preserves (some 2024) none sessionEx campaignEx stressEx
     sessionEx24 campaignEx24 stressEx (by decide)⟩

/-- Claim C2: on an empty table every one of the ten chart builders
short-circuits to its "no data" informational notice, whatever the state
of the optional libraries, producing no figure and raising nothing. -/
theorem C2_empty_table_info (t : Table) (hp hw : Bool) (h : t.rows = []) :
    draw_sessions_trend t = .info "No data for selected filters." ∧
    draw_sessions_bubble hp t = .info "No data for selected filters." ∧
    draw_sessions_heatmap t = .info "No data for selected filters." ∧
    draw_stress_stacked_bar t
      = .info "Stress level data unavailable for selected filters." ∧
    draw_sleep_violin hp t
      = .info "Sleep data unavailable for selected filters." ∧
    draw_stress_treemap hp t
      = .info "Stress factor data unavailable for selected filters." ∧
    draw_stress_sunburst hp t
      = .info "Sunburst requires Stress_Level, Seeks_Help, and Gender columns." ∧
    draw_age_hist hp t = .info "Age data unavailable for selected filters." ∧
    draw_campaign_timeline t
      = .info "No campaign data for selected filters." ∧
    draw_session_notes_wordcloud hw t
      = .info "Session notes unavailable for selected filters." := by
  simp [draw_sessions_trend, draw_sessions_bubble, draw_sessions_heatmap,
    draw_stress_stacked_bar, draw_sleep_violin, draw_stress_treemap,
    draw_stress_sunburst, draw_age_hist, draw_campaign_timeline,
    draw_session_notes_wordcloud, h]

/-- Witness for C2 on a concrete empty table with both libraries present. -/
theorem C2_witness :
    emptyTable.rows = [] ∧
    (draw_sessions_trend emptyTable = .info "No data for selected filters." ∧
    draw_sessions_bubble true emptyTable
      = .info "No data for selected filters." ∧
    draw_sessions_heatmap emptyTable
      = .info "No data for selected filters." ∧
    draw_stress_stacked_bar emptyTable
      = .info "Stress level data unavailable for selected filters." ∧
    draw_sleep_violin true emptyTable
      = .info "Sleep data unavailable for selected filters." ∧
    draw_stress_treemap true emptyTable
      = .info "Stress factor data unavailable for selected filters." ∧
    draw_stress_sunburst true emptyTable
      = .info "Sunburst requires Stress_Level, Seeks_Help, and Gender columns." ∧
    draw_age_hist true emptyTable
      = .info "Age data unavailable for selected filters." ∧
    draw_campaign_timeline emptyTable
      = .info "No campaign data for selected filters." ∧
    draw_session_notes_wordcloud true emptyTable
      = .info "Session notes unavailable for selected filters.") :=
  ⟨rfl, C2_empty_table_info emptyTable true true rfl⟩

/-- Counterexample to claim C3: on a non-empty session table lacking the
Sessions_Held column, `draw_sessions_heatmap`'s `pivot_table` call raises
KeyError — aborting the render pass — instead of skipping the chart with
an informational notice. -/
theorem C3_counterexample :
    sessionNoHeld.rows ≠ [] ∧
    draw_sessions_heatmap sessionNoHeld
      = .raise "KeyError: pivot_table column not found" := by decide

/-- Claim C3 (amended): the charts that guard their required columns skip
with a notice and the siblings not needing the column still render: on a
non-empty stress table lacking Stress_Level the stacked bar (and the
sunburst, which lists it among its requirements) is skipped with an
informational notice, while the violin, treemap and age histogram still
produce figures when their own columns are present. The unguarded
computations (pivot_table, px.scatter, groupby) raise on a missing
required column instead — see the counterexample. -/
theorem C3_missing_column_guards (t : Table) (hne : t.rows.isEmpty = false)
    (hsl : t.hasCol "Stress_Level" = false) :
    draw_stress_stacked_bar t
      = .info "Stress level data unavailable for selected filters." ∧
    (t.hasCol "Avg_Sleep_Hours" = true →
      draw_sleep_violin true t = .figure t) ∧
    (t.hasCol "Primary_Stress_Factor" = true →
      draw_stress_treemap true t = .figure t) ∧
    (t.hasCol "Age" = true → draw_age_hist true t = .figure t) ∧
    draw_stress_sunburst true t
      = .info "Sunburst requires Stress_Level, Seeks_Help, and Gender columns." := by
  refine ⟨?_, fun h1 => ?_, fun h2 => ?_, fun h3 => ?_, ?_⟩
  · simp [draw_stress_stacked_bar, hne, hsl]
  · simp [draw_sleep_violin, hne, h1]
  · simp [draw_stress_treemap, hne, h2]
  · simp [draw_age_hist, hne, h3]
  · simp [draw_stress_sunburst, hne, hsl]

/-- Witness for the amended C3 on a stress table without Stress_Level. -/
theorem C3_witness :
    stressNoLevel.rows.isEmpty = false ∧
    stressNoLevel.hasCol "Stress_Level" = false ∧
    draw_stress_stacked_bar stressNoLevel
      = .info "Stress level data unavailable for selected filters." ∧
    draw_sleep_violin true stressNoLevel = .figure stressNoLevel ∧
    draw_stress_treemap true stressNoLevel = .figure stressNoLevel ∧
    draw_age_hist true stressNoLevel = .figure stressNoLevel ∧
    draw_stress_sunburst true stressNoLevel
      = .info "Sunburst requires Stress_Level, Seeks_Help, and Gender columns." := by
  obtain ⟨g1, g2, g3, g4, g5⟩ :=
    C3_missing_column_guards stressNoLevel (by decide) (by decide)
  exact ⟨by decide, by decide, g1, g2 (by decide), g3 (by decide),
    g4 (by decide), g5⟩

/-- Counterexample to claim C4: the filter block applies the university
filter to the campaign table without checking that it has a University
column (line 139), so on a campaign table lacking it the block raises
KeyError (`none`) instead of ignoring the dimension and leaving the
table unchanged. -/
theorem C4_counterexample :
    sidebarFilter none (some "A") sessionEx campaignNoUniv stressEx
      = none := by decide

/-- Claim C4 (amended): only the stress dataset carries dimension-absence
guards: a filter dimension whose column the stress table lacks is ignored
for it, so when the stress table has neither a Year nor a University
column any completed run of the filter block returns it unchanged. The
campaign table enjoys no such guard for the university dimension and the
block raises on it instead — see the counterexample. -/
theorem C4_stress_guard (sy : Option Int) (su : Option String)
    (session campaign stress s' c' t' : Table)
    (hYear : stress.hasCol "Year" = false)
    (hUniv : stress.hasCol "University" = false)
    (h : sidebarFilter sy su session campaign stress = some (s', c', t')) :
    t' = stress := by
  obtain ⟨_, _, ⟨htc, htr⟩⟩ := sidebarFilter_eq_some h
  rw [hYear, hUniv] at htr
  simp [keepYearGuard, keepUnivGuard] at htr
  cases t'
  cases stress
  simp only [Table.mk.injEq]
  exact ⟨htc, htr⟩

/-- Witness for the amended C4: a stress table lacking both columns
passes through a Year 2023, University A filter run unchanged. -/
theorem C4_witness :
    stressNoKeys.hasCol "Year" = false ∧
    stressNoKeys.hasCol "University" = false ∧
    sidebarFilter (some 2023) (some "A") sessionEx campaignEx stressNoKeys
      = some (sessionExF, campaignExF, stressNoKeys) ∧
    stressNoKeys = stressNoKeys :=
  ⟨by decide, by decide, by decide,
   C4_stress_guard (some 2023) (some "A") sessionEx campaignEx stressNoKeys
     sessionExF campaignExF stressNoKeys (by decide) (by decide) (by decide)⟩

/-- Claim C5 (amended): grouping the spec's example table by
Year &times; University with sum yields exactly the two observed groups
(2023, A, 8) and (2023, B, 2); group keys absent from the data are not
zero-filled, but in the heatmap's pivot-and-melt they are not omitted
either: they appear with a missing (NaN) aggregate value. -/
theorem C5_aggregation :
    pivotMelt aggEx = some aggExPivot ∧
    pivotMelt aggSparse = some aggSparsePivot := by decide

/-- Counterexample to C5's clause that absent groups are omitted: the
group (B, 2023) has no row in `aggSparse`, yet the melted pivot contains
a row for it, with a missing aggregate. -/
theorem C5_counterexample :
    pivotMelt aggSparse = some aggSparsePivot ∧
    [("University", Value.str "B"), ("Year", Value.int 2023),
      ("Sessions_Held", Value.missing)] ∈ aggSparsePivot.rows ∧
    (aggSparse.rows.filter fun r =>
      rowMatches r "University" (.str "B") &&
      rowMatches r "Year" (.int 2023)) = [] := by decide

/-- Claim C7 (amended): the campaign Year derivation never raises — every
row receives a Year, and any row whose Date fails to parse receives a
missing Year. The session dataset's Year conversion, in contrast, goes
through `astype(int)` and is fatal on an unparsable value — see the
counterexample. -/
theorem C7_campaign_year_missing (t : Table) (h : t.hasCol "Date" = true) :
    campaignAddYear t
      = some { cols := if t.hasCol "Year" then t.cols else t.cols ++ ["Year"],
               rows := t.rows.map fun r =>
                 r.setCol "Year" (campaignYearOf r) } ∧
    ∀ r : Row, ∀ s : String, r.lookup "Date" = some (.str s) →
      parseYMD s = none →
      (r.setCol "Year" (campaignYearOf r)).lookup "Year"
        = some Value.missing := by
  constructor
  · simp [campaignAddYear, h]
  · intro r s hd hp
    rw [lookup_setCol]
    simp [campaignYearOf, hd, hp]

/-- Witness for the amended C7: loading a campaign table holding the
unparsable Date "not a date" succeeds and gives that row a missing Year. -/
theorem C7_witness :
    campaignRaw.hasCol "Date" = true ∧
    (campRowBad.setCol "Year" (campaignYearOf campRowBad)).lookup "Year"
      = some Value.missing :=
  ⟨by decide,
   (C7_campaign_year_missing campaignRaw (by decide)).2 campRowBad
     "not a date" (by decide) (by decide)⟩

/-- Counterexample to claim C7: the session load runs
`session["Year"].astype(int)`, which raises (`none`) on the unparsable
Year value "N/A" — an unparsable year is fatal to the load, not a missing
value. -/
theorem C7_counterexample :
    sessionBadYear.rows ≠ [] ∧
    sessionCoerceYear sessionBadYear = none := by decide

/-- Claim C8: when Plotly is unavailable the four charts that require it
(bubble, violin, treemap, sunburst) each emit the warning naming
"plotly-express" and produce no figure, and when WordCloud is unavailable
the word-cloud chart warns naming "wordcloud"; every other chart of the
dashboard (trend, heatmap, age histogram via its Altair fallback,
campaign timeline) still renders a figure from the same data. -/
theorem C8_missing_capability (dfS dfT dfC : Table)
    (hS : dfS.rows.isEmpty = false)
    (hSn : dfS.hasCol "Session_Notes" = true)
    (hSu : dfS.hasCol "University" = true)
    (hSy : dfS.hasCol "Year" = true)
    (hSh : dfS.hasCol "Sessions_Held" = true)
    (hT : dfT.rows.isEmpty = false)
    (hT1 : dfT.hasCol "Avg_Sleep_Hours" = true)
    (hT2 : dfT.hasCol "Primary_Stress_Factor" = true)
    (hT3 : dfT.hasCol "Stress_Level" = true)
    (hT4 : dfT.hasCol "Seeks_Help" = true)
    (hT5 : dfT.hasCol "Gender" = true)
    (hT6 : dfT.hasCol "Age" = true)
    (hC : dfC.rows.isEmpty = false)
    (hCy : dfC.hasCol "Year" = true) :
    draw_sessions_bubble false dfS = .warn "plotly-express" ∧
    draw_sleep_violin false dfT = .warn "plotly-express" ∧
    draw_stress_treemap false dfT = .warn "plotly-express" ∧
    draw_stress_sunburst false dfT = .warn "plotly-express" ∧
    draw_session_notes_wordcloud false dfS = .warn "wordcloud" ∧
    draw_sessions_trend dfS = .figure dfS ∧
    (∃ p, draw_sessions_heatmap dfS = .figure p) ∧
    draw_age_hist false dfT = .figure dfT ∧
    (∃ a, draw_campaign_timeline dfC = .figure a) := by
  refine ⟨?_, ?_, ?_, ?_, ?_, ?_, ?_, ?_, ?_⟩
  · simp [draw_sessions_bubble, hS]
  · simp [draw_sleep_violin, hT, hT1]
  · simp [draw_stress_treemap, hT, hT2]
  · simp [draw_stress_sunburst, hT, hT3, hT4, hT5]
  · simp [draw_session_notes_wordcloud, hS, hSn]
  · simp [draw_sessions_trend, hS]
  · obtain ⟨P, hP⟩ : ∃ P, pivotMelt dfS = some P := by
      simp [pivotMelt, hSu, hSy, hSh]
    exact ⟨P, by simp [draw_sessions_heatmap, hS, hP]⟩
  · simp [draw_age_hist, hT, hT6]
  · obtain ⟨A, hA⟩ : ∃ A, groupSize dfC = some A := by
      unfold groupSize
      by_cases hCU : dfC.hasCol "University" = true
      · simp [hCU, hCy]
      · obtain ⟨k, hk⟩ : ∃ k, dfC.cols.head? = some k := by
          cases hcc : dfC.cols with
          | nil =>
            rw [Table.hasCol, hcc] at hCy
            simp at hCy
          | cons a l => exact ⟨a, rfl⟩
        simp only [Bool.not_eq_true] at hCU
        simp [hCU, hk, hCy]
    exact ⟨A, by simp [draw_campaign_timeline, hC, hA]⟩

/-- Witness for C8 over the example datasets with both libraries absent. -/
theorem C8_witness :
    sessionEx.rows.isEmpty = false ∧
    stressEx.rows.isEmpty = false ∧
    campaignEx.rows.isEmpty = false ∧
    draw_sessions_bubble false sessionEx = .warn "plotly-express" ∧
    draw_sleep_violin false stressEx = .warn "plotly-express" ∧
    draw_stress_treemap false stressEx = .warn "plotly-express" ∧
    draw_stress_sunburst false stressEx = .warn "plotly-express" ∧
    draw_session_notes_wordcloud false sessionEx = .warn "wordcloud" ∧
    draw_sessions_trend sessionEx = .figure sessionEx ∧
    draw_age_hist false stressEx = .figure stressEx := by
  obtain ⟨g1, g2, g3, g4, g5, g6, _, g8, _⟩ :=
    C8_missing_capability sessionEx stressEx campaignEx (by decide)
      (by decide) (by decide) (by decide) (by decide) (by decide)
      (by decide) (by decide) (by decide) (by decide) (by decide)
      (by decide) (by decide) (by decide)
  exact ⟨by decide, by decide, by decide, g1, g2, g3, g4, g5, g6, g8⟩

/-- Claim C10: on a non-empty session table with a Session_Notes column
whose values are all missing or whitespace-only, the word-cloud builder
emits the informational message "Session notes are empty after
filtering." and returns without a figure and without raising. -/
theorem C10_blank_notes_info (t : Table) (hne : t.rows.isEmpty = false)
    (hcol : t.hasCol "Session_Notes" = true)
    (hblank : notesAllBlank t = true) :
    draw_session_notes_wordcloud true t
      = .info "Session notes are empty after filtering." := by
  have htexts : ∀ s ∈ (t.rows.filterMap fun r =>
      match r.lookup "Session_Notes" with
      | some Value.missing => none
      | none => none
      | some v => some (valueToStr v)),
      s.data.all Char.isWhitespace = true := by
    intro s hs
    rw [List.mem_filterMap] at hs
    obtain ⟨r, hr, hfr⟩ := hs
    have hb := List.all_eq_true.mp hblank r hr
    cases hlu : r.lookup "Session_Notes" with
    | none => rw [hlu] at hfr; simp at hfr
    | some v =>
      rw [hlu] at hfr hb
      cases v with
      | missing => simp at hfr
      | int i => simp at hb
      | str st =>
        simp only [valueToStr, Option.some.injEq] at hfr
        rw [← hfr]
        exact hb
  have hstrip : pyStrip (notesText t) = "" :=
    pyStrip_eq_empty (allWhitespace_pyJoin _ htexts)
  simp [draw_session_notes_wordcloud, hne, hcol, hstrip]

/-- Witness for C10 on a session table whose notes are NaN or blanks. -/
theorem C10_witness :
    sessionBlankNotes.rows.isEmpty = false ∧
    sessionBlankNotes.hasCol "Session_Notes" = true ∧
    notesAllBlank sessionBlankNotes = true ∧
    draw_session_notes_wordcloud true sessionBlankNotes
      = .info "Session notes are empty after filtering." :=
  ⟨by decide, by decide, by decide,
   C10_blank_notes_info sessionBlankNotes (by decide) (by decide)
     (by decide)⟩
